import Mathlib

/-!
Shallow embedding of `src/organize_photos.py` (class `PhotoOrganizer`).

The pipeline per file: read EXIF metadata, resolve a capture date
(EXIF tags, then filename patterns, then the file's mtime), decode GPS
coordinates, resolve a city name through a rate-limited reverse-geocoding
call, build the destination folder `"{date} - {city}"`, pick a
collision-free file name, and move the file, updating a processed/error
counter pair.

Python values are modelled as follows: `datetime` becomes a record of
six naturals (validated on construction exactly as the `datetime`
constructor does), EXIF dictionaries become records of `Option`-valued
fields, GPS rationals become `ℚ`, exceptions become `Option`/sum types,
the filesystem becomes an explicit list of paths threaded through the
run, and the effectful geocoding calls additionally emit an event trace
(sleep / request / move) so that rate-limit ordering can be stated.
-/

namespace TriPhotos

/-- Model of Python `datetime.datetime`: six calendar/time fields. -/
structure DateTime where
  year : Nat
  month : Nat
  day : Nat
  hour : Nat
  minute : Nat
  second : Nat
deriving DecidableEq

/-- Gregorian leap-year test, as used by `datetime`'s day validation. -/
def isLeap (y : Nat) : Bool :=
  y % 4 == 0 && (y % 100 != 0 || y % 400 == 0)

/-- Number of days of month `m` in year `y` (Python `calendar` rules). -/
def daysInMonth (y m : Nat) : Nat :=
  if m = 2 then (if isLeap y then 29 else 28)
  else if m = 4 ∨ m = 6 ∨ m = 9 ∨ m = 11 then 30
  else 31

/-- The validating `datetime(year, month, day, hour, minute, second)`
constructor: `none` models the `ValueError` it raises on out-of-range
fields (`MINYEAR = 1`, `MAXYEAR = 9999`). -/
def mkDatetime (y mo d h mi s : Nat) : Option DateTime :=
  if 1 ≤ y ∧ y ≤ 9999 ∧ 1 ≤ mo ∧ mo ≤ 12 ∧ 1 ≤ d ∧ d ≤ daysInMonth y mo
      ∧ h ≤ 23 ∧ mi ≤ 59 ∧ s ≤ 59 then
    some ⟨y, mo, d, h, mi, s⟩
  else none

/-- Decimal value of a digit list, as `int()` on a digit-only string. -/
def digitsVal (cs : List Char) : Nat :=
  cs.foldl (fun a c => a * 10 + (c.toNat - 48)) 0

/-- Consume one expected literal character (a literal in a `strptime`
format string). -/
def expectChar (c : Char) : List Char → Option (List Char)
  | x :: r => if x = c then some r else none
  | [] => none

/-- Consume a numeric `strptime` field of at most two digits whose value
must lie in `[lo, hi]` (the union of the alternatives in CPython's
`_strptime` regex for `%m`, `%d`, `%H`, `%M`, `%S`). -/
def numField (lo hi : Nat) (cs : List Char) : Option (Nat × List Char) :=
  let p := cs.span (fun c => c.isDigit)
  if 1 ≤ p.1.length ∧ p.1.length ≤ 2 ∧ lo ≤ digitsVal p.1 ∧ digitsVal p.1 ≤ hi then
    some (digitsVal p.1, p.2)
  else none

/-- `datetime.strptime(s, "%Y:%m:%d %H:%M:%S")`: `%Y` is exactly four
digits, `%m ∈ [1,12]`, `%d ∈ [1,31]`, a whitespace run of length ≥ 1 for
the literal space, `%H ≤ 23`, `%M, %S ≤ 59`, no unconverted data may
remain, and the `datetime` constructor then validates the calendar. -/
def parseExifDT (s : String) : Option DateTime := do
  let cs := s.data
  let py := cs.span (fun c => c.isDigit)
  if py.1.length ≠ 4 then none else
  let r1 ← expectChar ':' py.2
  let (mo, r2) ← numField 1 12 r1
  let r3 ← expectChar ':' r2
  let (d, r4) ← numField 1 31 r3
  let pw := r4.span (fun c => c.isWhitespace)
  if pw.1.length = 0 then none else
  let (h, r5) ← numField 0 23 pw.2
  let r6 ← expectChar ':' r5
  let (mi, r7) ← numField 0 59 r6
  let r8 ← expectChar ':' r7
  let (sec, r9) ← numField 0 59 r8
  if r9 ≠ [] then none else
  mkDatetime (digitsVal py.1) mo d h mi sec

/-- A raw EXIF GPS component value: a numeric (rational) value on which
`float()` succeeds, or a non-numeric value on which it raises. -/
inductive ExifVal where
  | num (q : ℚ)
  | nonNum
deriving DecidableEq

/-- The `GPSInfo` sub-dictionary after `GPSTAGS` decoding, restricted to
the keys `get_gps_coordinates` reads; `none` models an absent key. -/
structure GpsData where
  gpsLatitude : Option (List ExifVal)
  gpsLongitude : Option (List ExifVal)
  gpsLatitudeRef : Option String
  gpsLongitudeRef : Option String

/-- EXIF tag mapping restricted to the tags `PhotoOrganizer` reads;
`none` models an absent key (or, for `gpsInfo`, a falsy `GPSInfo`). -/
structure Exif where
  dateTimeOriginal : Option String
  dateTime : Option String
  dateTimeDigitized : Option String
  gpsInfo : Option GpsData

/-- The empty EXIF mapping `{}` (what `get_exif_data` returns when the
image has no metadata or reading raised). -/
def emptyExif : Exif := ⟨none, none, none, none⟩

/-- Dictionary access `exif_data[tag]` for the tags the code uses. -/
def exifGet (e : Exif) (tag : String) : Option String :=
  if tag = "DateTimeOriginal" then e.dateTimeOriginal
  else if tag = "DateTime" then e.dateTime
  else if tag = "DateTimeDigitized" then e.dateTimeDigitized
  else none

/-- `date_tags = ['DateTimeOriginal', 'DateTime', 'DateTimeDigitized']`
(organize_photos.py line 120). -/
def date_tags : List String := ["DateTimeOriginal", "DateTime", "DateTimeDigitized"]

/-- The `for tag in date_tags` loop body of `get_date_from_exif`: a
present tag whose value parses is returned; a parse failure (`except`)
or an absent tag continues with the next tag. -/
def exifDateLoop (e : Exif) : List String → Option DateTime
  | [] => none
  | t :: ts =>
    match exifGet e t with
    | some v =>
      match parseExifDT v with
      | some d => some d
      | none => exifDateLoop e ts
    | none => exifDateLoop e ts

/-- `PhotoOrganizer.get_date_from_exif` (lines 118-131). -/
def get_date_from_exif (e : Exif) : Option DateTime :=
  exifDateLoop e date_tags

/-- The optional separator `[-_]?` of the first filename regex.  When
the next character is `-` or `_` it is consumed; since the following
regex element is a digit class, the backtracking alternative (not
consuming a present separator) can never succeed, so this is exactly
Python's greedy `[-_]?`. -/
def dropSep : List Char → List Char
  | c :: r => if c = '-' ∨ c = '_' then r else c :: r
  | [] => []

/-- Numeric value of the concatenation of two digit characters. -/
def val2 (a b : Char) : Nat := digitsVal [a, b]

/-- Numeric value of the concatenation of four digit characters. -/
def val4 (a b c d : Char) : Nat := digitsVal [a, b, c, d]

/-- Attempt of the regex `(\d{4})[-_]?(\d{2})[-_]?(\d{2})` anchored at
the current position, returning `int`-converted groups
(year, month, day). -/
def matchP1At (cs : List Char) : Option (Nat × Nat × Nat) :=
  match cs with
  | a :: b :: c :: d :: rest =>
    if a.isDigit && b.isDigit && c.isDigit && d.isDigit then
      match dropSep rest with
      | e :: f :: rest2 =>
        if e.isDigit && f.isDigit then
          match dropSep rest2 with
          | g :: h :: _ =>
            if g.isDigit && h.isDigit then
              some (val4 a b c d, val2 e f, val2 g h)
            else none
          | _ => none
        else none
      | _ => none
    else none
  | _ => none

/-- Attempt of the regex `(\d{8})` anchored at the current position,
with the group already split as `[:4]`, `[4:6]`, `[6:8]` and
`int`-converted, as in lines 148-151. -/
def matchP2At (cs : List Char) : Option (Nat × Nat × Nat) :=
  match cs with
  | a :: b :: c :: d :: e :: f :: g :: h :: _ =>
    if a.isDigit && b.isDigit && c.isDigit && d.isDigit &&
        e.isDigit && f.isDigit && g.isDigit && h.isDigit then
      some (val4 a b c d, val2 e f, val2 g h)
    else none
  | _ => none

/-- `re.search` with the first pattern: the match at the leftmost
position where the pattern succeeds, or `none`. -/
def searchP1 : List Char → Option (Nat × Nat × Nat)
  | [] => none
  | c :: rest =>
    match matchP1At (c :: rest) with
    | some g => some g
    | none => searchP1 rest

/-- `re.search` with the second pattern: leftmost run of 8 digits. -/
def searchP2 : List Char → Option (Nat × Nat × Nat)
  | [] => none
  | c :: rest =>
    match matchP2At (c :: rest) with
    | some g => some g
    | none => searchP2 rest

/-- `datetime(int(year), int(month), int(day))` on a match's groups. -/
def dateOfGroups : Nat × Nat × Nat → Option DateTime
  | (y, mo, d) => mkDatetime y mo d 0 0 0

/-- `PhotoOrganizer.get_date_from_filename` (lines 133-156): the two
patterns are tried in order; for each, only the leftmost match is
considered, and a `ValueError` from `datetime` moves to the next
pattern (`continue`), never to a later match of the same pattern. -/
def get_date_from_filename (filename : String) : Option DateTime :=
  match searchP1 filename.data with
  | some g =>
    match dateOfGroups g with
    | some dt => some dt
    | none =>
      match searchP2 filename.data with
      | some g2 => dateOfGroups g2
      | none => none
  | none =>
    match searchP2 filename.data with
    | some g2 => dateOfGroups g2
    | none => none

/-- `PhotoOrganizer.get_photo_date` (lines 158-172): EXIF first, then
the filename, then the filesystem modification time (always present,
passed here as `mtime`). -/
def get_photo_date (e : Exif) (filename : String) (mtime : DateTime) : DateTime :=
  match get_date_from_exif e with
  | some d => d
  | none =>
    match get_date_from_filename filename with
    | some d => d
    | none => mtime

/-- `PhotoOrganizer._convert_to_degrees` (lines 88-91):
`float(d) + float(m)/60 + float(s)/3600` on an exact 3-element unpack.
`none` models the exception raised (and caught by the caller's `try`)
when the value does not unpack into three numerics. -/
def convert_to_degrees : List ExifVal → Option ℚ
  | [ExifVal.num d, ExifVal.num m, ExifVal.num s] =>
    some (d + m / 60 + s / 3600)
  | _ => none

/-- `PhotoOrganizer.get_gps_coordinates` (lines 58-86): requires a
truthy `GPSInfo` with both `GPSLatitude` and `GPSLongitude`; converts
both triples (any exception is caught, yielding `None`); negates the
latitude when `GPSLatitudeRef == 'S'` and the longitude when
`GPSLongitudeRef == 'W'`. -/
def get_gps_coordinates (e : Exif) : Option (ℚ × ℚ) :=
  match e.gpsInfo with
  | none => none
  | some g =>
    match g.gpsLatitude, g.gpsLongitude with
    | some latV, some lonV =>
      match convert_to_degrees latV, convert_to_degrees lonV with
      | some lat, some lon =>
        some ((if g.gpsLatitudeRef = some "S" then -lat else lat),
              (if g.gpsLongitudeRef = some "W" then -lon else lon))
      | _, _ => none
    | _, _ => none

/-- The `address` sub-structure of a Nominatim reverse-geocoding
response, restricted to the keys `get_city_from_coordinates` reads. -/
structure Address where
  village : Option String
  town : Option String
  city : Option String
  municipality : Option String
  county : Option String

/-- Python's short-circuiting `x or y` for an optional address field:
an absent key and an empty string are both falsy. -/
def strOr (a : Option String) (b : String) : String :=
  match a with
  | some s => if s = "" then b else s
  | none => b

/-- Lines 104-108: `village or town or city or municipality or
address.get('county', 'Inconnu')`. -/
def pickCity (a : Address) : String :=
  strOr a.village (strOr a.town (strOr a.city (strOr a.municipality
    (a.county.getD "Inconnu"))))

/-- Outcome of the external `geolocator.reverse` call: an exception
(`GeocoderTimedOut`, `GeocoderServiceError`, or any other), or a
response; `ok none` models a `None` location or one whose raw mapping
has no truthy `address`. -/
inductive GeoResult where
  | timeout
  | serviceError
  | unexpected
  | ok (address : Option Address)

/-- A filesystem path (`pathlib.Path` as the code uses it): directory
part and file name, compared for equality as `Path.exists` does. -/
structure FsPath where
  dir : String
  name : String
deriving DecidableEq

/-- Observable effects of a run, in order: the mandatory rate-limit
sleep, the issued reverse-geocoding request, and a completed move. -/
inductive Event where
  | sleep (secs : Nat)
  | geocode (lat lon : ℚ)
  | move (src : String) (dest : FsPath)
deriving DecidableEq

/-- `PhotoOrganizer.get_city_from_coordinates` (lines 93-116): always
sleeps 1 second, then issues the request; every exception is converted
to `'Inconnu'`, as is a falsy location/address.  The returned pair is
(city, emitted events). -/
def get_city_from_coordinates (geo : GeoResult) (lat lon : ℚ) : String × List Event :=
  (match geo with
   | GeoResult.timeout => "Inconnu"
   | GeoResult.serviceError => "Inconnu"
   | GeoResult.unexpected => "Inconnu"
   | GeoResult.ok none => "Inconnu"
   | GeoResult.ok (some addr) => pickCity addr,
   [Event.sleep 1, Event.geocode lat lon])

/-- Index of the last occurrence of `c` in the list, if any
(`str.rfind`). -/
def lastIdxOf (c : Char) : List Char → Option Nat
  | [] => none
  | a :: rest =>
    match lastIdxOf c rest with
    | some i => some (i + 1)
    | none => if a = c then some 0 else none

/-- `pathlib`'s name splitting: the extension starts at the last dot
provided that dot is neither the first nor the last character;
otherwise the whole name is the stem and the extension is empty.
Returns (stem, extension-with-dot). -/
def splitName (name : String) : String × String :=
  let cs := name.data
  match lastIdxOf '.' cs with
  | some i =>
    if 0 < i ∧ i + 1 < cs.length then (⟨cs.take i⟩, ⟨cs.drop i⟩)
    else (name, "")
  | none => (name, "")

/-- `Path.stem`. -/
def pyStem (name : String) : String := (splitName name).1

/-- `Path.suffix` (written with the source's field access in mind). -/
def pyExt (name : String) : String := (splitName name).2

/-- Line 186: `f"{stem}_{counter}{suffix}"`. -/
def numberedName (stem ext : String) (counter : Nat) : String :=
  stem ++ "_" ++ Nat.repr counter ++ ext

/-- The `while destination_path.exists()` loop of
`get_unique_filename`, counting up from `counter`.  The Python loop
terminates because the filesystem is finite; here the same fact is
expressed through a fuel argument, and `uniqueLoop_spec` below proves
that `fs.length + 1` units of fuel are never exhausted. -/
def uniqueLoop (fs : List FsPath) (dir stem ext : String) : Nat → Nat → FsPath
  | _, 0 => ⟨dir, stem ++ ext⟩
  | counter, fuel + 1 =>
    let p : FsPath := ⟨dir, numberedName stem ext counter⟩
    if p ∈ fs then uniqueLoop fs dir stem ext (counter + 1) fuel
    else p

/-- `PhotoOrganizer.get_unique_filename` (lines 174-190), with the
filesystem contents passed explicitly: the path itself when free,
otherwise the first `stem_k{ext}` (k = 1, 2, ...) that is free. -/
def get_unique_filename (fs : List FsPath) (p : FsPath) : FsPath :=
  if p ∈ fs then
    uniqueLoop fs p.dir (pyStem p.name) (pyExt p.name) 1 (fs.length + 1)
  else p

/-- `'%Y-%m-%d'`-style zero padding of one field. -/
def padZero (w n : Nat) : String :=
  ⟨List.replicate (w - (Nat.repr n).length) '0'⟩ ++ Nat.repr n

/-- `photo_date.strftime('%Y-%m-%d')` (line 202). -/
def formatDate (d : DateTime) : String :=
  padZero 4 d.year ++ "-" ++ padZero 2 d.month ++ "-" ++ padZero 2 d.day

/-- Per-file input: the file's name, its (already absorbed) EXIF data,
its modification time, what the geocoder would answer if asked, and
whether the filesystem lets mkdir/move succeed for it. -/
structure FileInput where
  name : String
  exif : Exif
  mtime : DateTime
  geo : GeoResult
  moveOk : Bool

/-- Run state threaded through the loop of `organize_photos`: the
destination filesystem contents, the two counters, and the event
trace. -/
structure RunState where
  fs : List FsPath
  processed : Nat
  errors : Nat
  trace : List Event

/-- `PhotoOrganizer.process_photo` (lines 192-233): resolve date and
city, build `"{date} - {city}"` under the destination root, pick a
unique name against the current filesystem state, then move; a failing
move (the `except` arm) leaves the filesystem untouched and increments
the error counter instead of the processed counter. -/
def process_photo (destRoot : String) (st : RunState) (f : FileInput) : RunState :=
  let dateStr := formatDate (get_photo_date f.exif f.name f.mtime)
  let cityEv : String × List Event :=
    match get_gps_coordinates f.exif with
    | some (lat, lon) => get_city_from_coordinates f.geo lat lon
    | none => ("Inconnu", [])
  let folder := destRoot ++ "/" ++ (dateStr ++ " - " ++ cityEv.1)
  let dest := get_unique_filename st.fs ⟨folder, f.name⟩
  if f.moveOk then
    { fs := dest :: st.fs
      processed := st.processed + 1
      errors := st.errors
      trace := st.trace ++ cityEv.2 ++ [Event.move f.name dest] }
  else
    { fs := st.fs
      processed := st.processed
      errors := st.errors + 1
      trace := st.trace ++ cityEv.2 }

/-- `photo_extensions` (line 39). -/
def photo_extensions : List String :=
  [".jpg", ".jpeg", ".png", ".heic", ".heif", ".raw", ".cr2", ".nef", ".arw"]

/-- `str.lower()` restricted to ASCII, which covers every extension the
code compares against. -/
def lowerStr (s : String) : String :=
  ⟨s.data.map (fun c => if 'A' ≤ c ∧ c ≤ 'Z' then Char.ofNat (c.toNat + 32) else c)⟩

/-- `f.suffix.lower() in self.photo_extensions` (line 253). -/
def isPhotoFile (name : String) : Bool :=
  photo_extensions.contains (lowerStr (pyExt name))

/-- Result of a whole run: final state plus whether the run aborted
fatally because the source directory is missing. -/
structure RunResult where
  state : RunState
  fatal : Bool

/-- `PhotoOrganizer.organize_photos` (lines 235-271): a missing source
directory is reported and stops the run before any file is processed;
otherwise the photo files are filtered by extension and processed one
at a time (an empty photo list returns early, which coincides with the
empty fold). -/
def organize_photos (destRoot : String) (sourceExists : Bool)
    (files : List FileInput) (st : RunState) : RunResult :=
  if sourceExists then
    ⟨(files.filter (fun f => isPhotoFile f.name)).foldl (process_photo destRoot) st, false⟩
  else ⟨st, true⟩

/-- Initial run state: fresh counters over a given destination
filesystem. -/
def initState (fs : List FsPath) : RunState := ⟨fs, 0, 0, []⟩

/-- Numeric value of a decimal digit character. -/
def digitVal (c : Char) : Nat := c.toNat - 48

/-- Decimal digits of `n`, most significant first. -/
def digs (n : Nat) : List Char :=
  if n < 10 then [Nat.digitChar n]
  else digs (n / 10) ++ [Nat.digitChar (n % 10)]
decreasing_by
  exact Nat.div_lt_self (by omega) (by omega)

/-- Evaluate a digit list back to a number, given a leading
accumulator. -/
def undig : List Char → Nat → Nat
  | [], acc => acc
  | c :: cs, acc => undig cs (acc * 10 + digitVal c)

/-- "Every geocoding request is immediately preceded by the rate-limit
sleep": relation used under `List.Chain'` over a trace. -/
def sleepBefore (a b : Event) : Prop :=
  ∀ lat lon, b = Event.geocode lat lon → a = Event.sleep 1

/-- A trace whose head is not a geocoding request. -/
def headNotGeocode (l : List Event) : Prop :=
  ∀ lat lon, l.head? ≠ some (Event.geocode lat lon)

/-- A well-throttled trace: no request opens it and every request is
immediately preceded by `sleep 1`. -/
def throttled (l : List Event) : Prop :=
  headNotGeocode l ∧ List.Chain' sleepBefore l

/-- An EXIF mapping carrying only GPS data: numeric DMS triples for
latitude and longitude plus hemisphere references. -/
def gpsExif (latT lonT : ℚ × ℚ × ℚ) (rlat rlon : Option String) : Exif :=
  ⟨none, none, none,
   some ⟨some [ExifVal.num latT.1, ExifVal.num latT.2.1, ExifVal.num latT.2.2],
         some [ExifVal.num lonT.1, ExifVal.num lonT.2.1, ExifVal.num lonT.2.2],
         rlat, rlon⟩⟩

/-! ### Decimal representation: `Nat.repr` is injective

Needed to show that the counter loop of `get_unique_filename` always
escapes a finite filesystem: distinct counters give distinct names. -/

theorem digs_eq_toDigitsCore :
    ∀ fuel n ds, n < fuel → Nat.toDigitsCore 10 fuel n ds = digs n ++ ds := by
  intro fuel
  induction fuel with
  | zero => intro n ds h; omega
  | succ f ih =>
    intro n ds h
    rw [Nat.toDigitsCore]
    by_cases h10 : n < 10
    · have hz : n / 10 = 0 := Nat.div_eq_of_lt h10
      rw [digs]
      simp [hz, h10, Nat.mod_eq_of_lt h10]
    · have hz : ¬ n / 10 = 0 := by
        intro hc
        exact h10 (by omega : n < 10)
      have hlt : n / 10 < f := by
        have := Nat.div_lt_self (by omega : 0 < n) (by omega : 1 < 10)
        omega
      rw [digs]
      simp only [h10, if_false]
      simp only [hz, if_false]
      rw [ih (n / 10) _ hlt]
      simp

theorem undig_append (xs : List Char) :
    ∀ ys acc, undig (xs ++ ys) acc = undig ys (undig xs acc) := by
  induction xs with
  | nil => intro ys acc; rfl
  | cons c cs ih =>
    intro ys acc
    simp only [List.cons_append, undig]
    exact ih ys (acc * 10 + digitVal c)

theorem digitVal_digitChar (n : Nat) (h : n < 10) :
    digitVal (Nat.digitChar n) = n := by
  interval_cases n <;> rfl

theorem undig_digs (n : Nat) :
    ∀ acc, undig (digs n) acc = acc * 10 ^ (digs n).length + n := by
  induction n using Nat.strong_induction_on with
  | _ n ih =>
    intro acc
    rw [digs]
    by_cases h10 : n < 10
    · simp [h10, undig, digitVal_digitChar n h10]
    · have h0 : 0 < n := by omega
      have hlt : n / 10 < n := Nat.div_lt_self h0 (by omega)
      simp only [h10, if_false]
      rw [undig_append, ih (n / 10) hlt acc]
      have hmod : digitVal (Nat.digitChar (n % 10)) = n % 10 :=
        digitVal_digitChar _ (Nat.mod_lt n (by omega))
      simp only [undig, hmod, List.length_append, List.length_singleton]
      have hdm : n / 10 * 10 + n % 10 = n := by omega
      calc (acc * 10 ^ (digs (n / 10)).length + n / 10) * 10 + n % 10
      _ = acc * (10 ^ (digs (n / 10)).length * 10) + (n / 10 * 10 + n % 10) := by ring
      _ = acc * 10 ^ ((digs (n / 10)).length + 1) + n := by rw [hdm, pow_succ]

theorem digs_inj {a b : Nat} (h : digs a = digs b) : a = b := by
  have ha := undig_digs a 0
  have hb := undig_digs b 0
  simp only [Nat.zero_mul, Nat.zero_add] at ha hb
  rw [h, hb] at ha
  exact ha.symm

theorem repr_eq_digs (n : Nat) : Nat.repr n = String.mk (digs n) := by
  show (Nat.toDigits 10 n).asString = _
  rw [Nat.toDigits, digs_eq_toDigitsCore (n + 1) n [] (Nat.lt_succ_self n)]
  simp [List.asString]

theorem repr_inj {a b : Nat} (h : Nat.repr a = Nat.repr b) : a = b := by
  apply digs_inj
  rw [repr_eq_digs, repr_eq_digs] at h
  exact congrArg String.data h

theorem numberedName_inj (stem ext : String) {a b : Nat}
    (h : numberedName stem ext a = numberedName stem ext b) : a = b := by
  apply repr_inj
  have hd := congrArg String.data h
  simp only [numberedName, String.data_append] at hd
  have h1 := List.append_cancel_right hd
  have h2 := List.append_cancel_left h1
  exact String.ext h2

theorem exists_free_numbered (fs : List FsPath) (dir stem ext : String) (c : Nat) :
    ∃ k, c ≤ k ∧ k ≤ c + fs.length ∧ (⟨dir, numberedName stem ext k⟩ : FsPath) ∉ fs := by
  by_contra hcon
  push_neg at hcon
  have hmaps : ∀ i ∈ Finset.range (fs.length + 1),
      (⟨dir, numberedName stem ext (c + i)⟩ : FsPath) ∈ fs.toFinset := by
    intro i hi
    rw [List.mem_toFinset]
    exact hcon (c + i) (Nat.le_add_right c i)
      (by simp only [Finset.mem_range] at hi; omega)
  have hinj : Set.InjOn (fun i => (⟨dir, numberedName stem ext (c + i)⟩ : FsPath))
      (Finset.range (fs.length + 1)) := by
    intro i _ j _ hij
    simp only [FsPath.mk.injEq] at hij
    have := numberedName_inj stem ext hij.2
    omega
  have hcard := Finset.card_le_card_of_injOn _ hmaps hinj
  simp only [Finset.card_range] at hcard
  have := fs.toFinset_card_le
  omega

theorem uniqueLoop_spec (fs : List FsPath) (dir stem ext : String) :
    ∀ fuel c, (∃ k, c ≤ k ∧ k < c + fuel ∧ (⟨dir, numberedName stem ext k⟩ : FsPath) ∉ fs) →
    ∃ k, c ≤ k ∧ uniqueLoop fs dir stem ext c fuel = ⟨dir, numberedName stem ext k⟩ ∧
      (⟨dir, numberedName stem ext k⟩ : FsPath) ∉ fs ∧
      ∀ j, c ≤ j → j < k → (⟨dir, numberedName stem ext j⟩ : FsPath) ∈ fs := by
  intro fuel
  induction fuel with
  | zero =>
    intro c hex
    obtain ⟨k, h1, h2, _⟩ := hex
    omega
  | succ f ih =>
    intro c hex
    rw [uniqueLoop]
    by_cases hc : (⟨dir, numberedName stem ext c⟩ : FsPath) ∈ fs
    · simp only [hc, if_true]
      obtain ⟨k, hk1, hk2, hk3⟩ := hex
      have hkc : k ≠ c := fun he => hk3 (he ▸ hc)
      obtain ⟨k2, h21, h22, h23, h24⟩ := ih (c + 1) ⟨k, by omega, by omega, hk3⟩
      refine ⟨k2, by omega, h22, h23, fun j hj1 hj2 => ?_⟩
      rcases Nat.eq_or_lt_of_le hj1 with he | hlt
      · exact he ▸ hc
      · exact h24 j (by omega) hj2
    · simp only [hc, if_false]
      exact ⟨c, le_refl c, rfl, hc,
        fun j h1 h2 => absurd (lt_of_le_of_lt h1 h2) (lt_irrefl c)⟩

/-- The loop of `get_unique_filename` with its actual fuel: it returns
the numbered path of the least free counter `k ≥ 1`, and that path is
free. -/
theorem uniqueLoop_run (fs : List FsPath) (dir stem ext : String) :
    ∃ k, 1 ≤ k ∧
      uniqueLoop fs dir stem ext 1 (fs.length + 1) = ⟨dir, numberedName stem ext k⟩ ∧
      (⟨dir, numberedName stem ext k⟩ : FsPath) ∉ fs ∧
      ∀ j, 1 ≤ j → j < k → (⟨dir, numberedName stem ext j⟩ : FsPath) ∈ fs := by
  apply uniqueLoop_spec
  obtain ⟨k, h1, h2, h3⟩ := exists_free_numbered fs dir stem ext 1
  exact ⟨k, h1, by omega, h3⟩

theorem uniqueLoop_dir (fs : List FsPath) (dir stem ext : String) :
    ∀ fuel c, (uniqueLoop fs dir stem ext c fuel).dir = dir := by
  intro fuel
  induction fuel with
  | zero => intro c; rfl
  | succ f ih =>
    intro c
    rw [uniqueLoop]
    by_cases hc : (⟨dir, numberedName stem ext c⟩ : FsPath) ∈ fs
    · simp only [hc, if_true]; exact ih (c + 1)
    · simp only [hc, if_false]

/-- The collision rename never changes the target directory. -/
theorem get_unique_filename_dir (fs : List FsPath) (p : FsPath) :
    (get_unique_filename fs p).dir = p.dir := by
  rw [get_unique_filename]
  by_cases h : p ∈ fs
  · simp only [h, if_true]; exact uniqueLoop_dir fs p.dir _ _ _ _
  · simp only [h, if_false]

/-! ### Helper lemmas about the per-file step and the run loop -/

/-- Each `process_photo` call increments exactly one of the two
counters. -/
theorem process_photo_count (destRoot : String) (st : RunState) (f : FileInput) :
    (process_photo destRoot st f).processed + (process_photo destRoot st f).errors
      = st.processed + st.errors + 1 := by
  rw [process_photo]
  by_cases h : f.moveOk <;> simp [h] <;> omega

theorem foldl_count (destRoot : String) (l : List FileInput) :
    ∀ st : RunState,
      ((l.foldl (process_photo destRoot) st).processed
        + (l.foldl (process_photo destRoot) st).errors)
      = st.processed + st.errors + l.length := by
  induction l with
  | nil => intro st; simp
  | cons f t ih =>
    intro st
    simp only [List.foldl_cons, List.length_cons]
    rw [ih (process_photo destRoot st f), process_photo_count]
    omega

theorem throttled_append {t chunk : List Event} (h1 : throttled t)
    (h2 : throttled chunk) : throttled (t ++ chunk) := by
  obtain ⟨h1h, h1c⟩ := h1
  obtain ⟨h2h, h2c⟩ := h2
  constructor
  · intro lat lon
    cases t with
    | nil => simpa using h2h lat lon
    | cons a r => simpa using h1h lat lon
  · rw [List.chain'_append]
    refine ⟨h1c, h2c, fun x _ y hy lat lon hg => ?_⟩
    exfalso
    exact h2h lat lon (by rw [hy, hg])

theorem throttled_nil : throttled [] :=
  ⟨fun lat lon => by simp [headNotGeocode], List.chain'_nil⟩

theorem throttled_move (src : String) (dest : FsPath) :
    throttled [Event.move src dest] := by
  refine ⟨fun lat lon => by simp, ?_⟩
  simp

theorem throttled_sleep_geo (lat0 lon0 : ℚ) (rest : List Event) :
    headNotGeocode rest → List.Chain' sleepBefore rest →
    (∀ x ∈ rest.head?, sleepBefore (Event.geocode lat0 lon0) x) →
    throttled (Event.sleep 1 :: Event.geocode lat0 lon0 :: rest) := by
  intro h1 h2 h3
  refine ⟨fun lat lon => by simp, ?_⟩
  rw [List.chain'_cons]
  refine ⟨fun lat lon _ => rfl, ?_⟩
  cases rest with
  | nil => simp
  | cons a r =>
    rw [List.chain'_cons]
    exact ⟨h3 a (by simp), h2⟩

/-- The events appended by one `process_photo` call form a throttled
chunk, and a file without coordinates contributes no geocoding
request. -/
theorem process_photo_trace (destRoot : String) (st : RunState) (f : FileInput) :
    ∃ chunk, (process_photo destRoot st f).trace = st.trace ++ chunk ∧
      throttled chunk ∧
      (get_gps_coordinates f.exif = none →
        ∀ e ∈ chunk, ∀ lat lon, e ≠ Event.geocode lat lon) := by
  by_cases hm : f.moveOk <;>
    rcases hg : get_gps_coordinates f.exif with _ | ⟨lat0, lon0⟩
  · -- moveOk, no coordinates: chunk = [move]
    refine ⟨[Event.move f.name (get_unique_filename st.fs
      ⟨destRoot ++ "/" ++ (formatDate (get_photo_date f.exif f.name f.mtime) ++ " - "
        ++ "Inconnu"), f.name⟩)], ?_, throttled_move _ _, ?_⟩
    · simp [process_photo, hg, hm]
    · intro _ e he lat lon
      simp only [List.mem_singleton] at he
      simp [he]
  · -- moveOk, coordinates: chunk = [sleep 1, geocode, move]
    refine ⟨Event.sleep 1 :: Event.geocode lat0 lon0 ::
      [Event.move f.name (get_unique_filename st.fs
        ⟨destRoot ++ "/" ++ (formatDate (get_photo_date f.exif f.name f.mtime) ++ " - "
          ++ (get_city_from_coordinates f.geo lat0 lon0).1), f.name⟩)], ?_, ?_, ?_⟩
    · simp [process_photo, hg, hm, get_city_from_coordinates]
    · refine throttled_sleep_geo lat0 lon0 _ (fun lat lon => by simp) (by simp) ?_
      intro x hx lat lon hxg
      simp only [List.head?_cons, Option.mem_def, Option.some.injEq] at hx
      rw [← hx] at hxg
      exact absurd hxg (by simp)
    · intro h
      exact absurd h (by simp)
  · -- move fails, no coordinates: chunk = []
    refine ⟨[], ?_, throttled_nil, by simp⟩
    simp [process_photo, hg, hm]
  · -- move fails, coordinates: chunk = [sleep 1, geocode]
    refine ⟨[Event.sleep 1, Event.geocode lat0 lon0], ?_, ?_, ?_⟩
    · simp [process_photo, hg, hm, get_city_from_coordinates]
    · exact throttled_sleep_geo lat0 lon0 [] (fun lat lon => by simp) (by simp) (by simp)
    · intro h
      exact absurd h (by simp)

/-- Folding the per-file step preserves well-throttled traces. -/
theorem foldl_throttled (destRoot : String) (l : List FileInput) :
    ∀ st : RunState, throttled st.trace →
      throttled ((l.foldl (process_photo destRoot) st).trace) := by
  induction l with
  | nil => intro st h; exact h
  | cons f t ih =>
    intro st h
    simp only [List.foldl_cons]
    apply ih
    obtain ⟨chunk, heq, hthr, _⟩ := process_photo_trace destRoot st f
    rw [heq]
    exact throttled_append h hthr

/-- The collision rename keeps the file inside the resolved folder. -/
theorem get_unique_filename_shape (fs : List FsPath) (dir nm : String) :
    ∃ nm2, get_unique_filename fs ⟨dir, nm⟩ = ⟨dir, nm2⟩ := by
  have h := get_unique_filename_dir fs ⟨dir, nm⟩
  refine ⟨(get_unique_filename fs ⟨dir, nm⟩).name, ?_⟩
  cases hq : get_unique_filename fs ⟨dir, nm⟩ with
  | mk dd dn =>
    rw [hq] at h
    simp only at h
    simp [h]

/-! ### Lemmas about the date resolvers -/

theorem exifDateLoop_cons (e : Exif) (t : String) (ts : List String) :
    exifDateLoop e (t :: ts) =
      ((exifGet e t).bind parseExifDT).orElse (fun _ => exifDateLoop e ts) := by
  cases hv : exifGet e t with
  | none => simp [exifDateLoop, hv, Option.orElse]
  | some v => cases hp : parseExifDT v <;> simp [exifDateLoop, hv, hp, Option.orElse]

theorem matchP1At_none_of_nondigit (c : Char) (cs : List Char)
    (h : c.isDigit = false) : matchP1At (c :: cs) = none := by
  rcases cs with _ | ⟨b, _ | ⟨c2, _ | ⟨d, rest⟩⟩⟩ <;> simp [matchP1At, h]

theorem searchP1_append_nondigit :
    ∀ (pre rest : List Char), (∀ c ∈ pre, c.isDigit = false) →
      searchP1 (pre ++ rest) = searchP1 rest := by
  intro pre
  induction pre with
  | nil => intro rest _; rfl
  | cons c t ih =>
    intro rest h
    have hc : c.isDigit = false := h c (List.mem_cons_self c t)
    rw [List.cons_append]
    simp only [searchP1, matchP1At_none_of_nondigit c _ hc]
    exact ih rest (fun x hx => h x (List.mem_cons_of_mem c hx))

theorem searchP1_at_ymd8 (tail : List Char) :
    searchP1 ('2' :: '0' :: '2' :: '3' :: '0' :: '6' :: '1' :: '5' :: tail)
      = some (2023, 6, 15) := rfl

theorem searchP1_at_ymd_dash (tail : List Char) :
    searchP1 ('2' :: '0' :: '2' :: '3' :: '-' :: '0' :: '6' :: '-' :: '1' :: '5' :: tail)
      = some (2023, 6, 15) := rfl

theorem searchP1_at_ymd_us (tail : List Char) :
    searchP1 ('2' :: '0' :: '2' :: '3' :: '_' :: '0' :: '6' :: '_' :: '1' :: '5' :: tail)
      = some (2023, 6, 15) := rfl

/-! ### Claim theorems -/

/-- C5: the EXIF date resolver tries `DateTimeOriginal`, `DateTime`,
`DateTimeDigitized` in this fixed order with the `YYYY:MM:DD HH:MM:SS`
pattern, a parse failure or absent tag falling through to the next tag;
in particular `DateTimeOriginal = "2022:01:05 10:20:30"` resolves to
January 5, 2022, 10:20:30, regardless of filename and mtime. -/
theorem exif_date_priority :
    (∀ e : Exif, get_date_from_exif e =
      ((e.dateTimeOriginal.bind parseExifDT).orElse (fun _ =>
        (e.dateTime.bind parseExifDT).orElse (fun _ =>
          e.dateTimeDigitized.bind parseExifDT)))) ∧
    (∀ (e : Exif) (filename : String) (mt : DateTime),
      e.dateTimeOriginal = some "2022:01:05 10:20:30" →
      get_photo_date e filename mt = ⟨2022, 1, 5, 10, 20, 30⟩) := by
  have hparse : parseExifDT "2022:01:05 10:20:30" = some ⟨2022, 1, 5, 10, 20, 30⟩ := by
    decide
  have hget1 : ∀ e : Exif, exifGet e "DateTimeOriginal" = e.dateTimeOriginal :=
    fun e => rfl
  have hget2 : ∀ e : Exif, exifGet e "DateTime" = e.dateTime := fun e => rfl
  have hget3 : ∀ e : Exif, exifGet e "DateTimeDigitized" = e.dateTimeDigitized :=
    fun e => rfl
  constructor
  · intro e
    show exifDateLoop e date_tags = _
    rw [date_tags, exifDateLoop_cons, exifDateLoop_cons, exifDateLoop_cons,
      hget1, hget2, hget3]
    cases hd : e.dateTimeDigitized.bind parseExifDT <;>
      simp [exifDateLoop, Option.orElse, hd]
  · intro e filename mt h
    have hexif : get_date_from_exif e = some ⟨2022, 1, 5, 10, 20, 30⟩ := by
      show exifDateLoop e date_tags = _
      rw [date_tags, exifDateLoop_cons, hget1, h]
      simp [hparse, Option.orElse]
    simp [get_photo_date, hexif]

theorem exif_date_priority_witness :
    get_photo_date ⟨some "2022:01:05 10:20:30", none, none, none⟩ "IMG_19990101.jpg"
      ⟨2020, 12, 31, 23, 59, 59⟩ = ⟨2022, 1, 5, 10, 20, 30⟩ :=
  exif_date_priority.2 ⟨some "2022:01:05 10:20:30", none, none, none⟩
    "IMG_19990101.jpg" ⟨2020, 12, 31, 23, 59, 59⟩ rfl

/-- C2 (counterexample): a filename that contains `2023-06-15` on which
the resolver does not yield June 15, 2023: the leftmost match of the
4/2/2 pattern is the invalid `1234_5678`, the second pattern finds no
8-digit run, so the resolver yields no date at all and the pipeline
falls back to the mtime. -/
theorem filename_date_counterexample :
    get_date_from_filename ("1234_5678_" ++ "2023-06-15" ++ ".jpg") = none ∧
    get_photo_date emptyExif ("1234_5678_" ++ "2023-06-15" ++ ".jpg")
      ⟨2020, 1, 1, 0, 0, 0⟩ = ⟨2020, 1, 1, 0, 0, 0⟩ ∧
    (⟨2020, 1, 1, 0, 0, 0⟩ : DateTime) ≠ ⟨2023, 6, 15, 0, 0, 0⟩ :=
  ⟨by decide, by decide, by decide⟩

/-- C2 (amended): for every filename of the form `pre ++ d ++ suf` with
`d` one of `20230615`, `2023-06-15`, `2023_06_15` and no digit in
`pre` — so that the date substring is the pattern's leftmost match —
the resolver yields June 15, 2023, and so does the full date resolution
when no metadata date tag is present, regardless of the mtime. -/
theorem filename_date_amended (pre suf : String) (e : Exif) (mt : DateTime)
    (hpre : ∀ c ∈ pre.data, c.isDigit = false)
    (h1 : e.dateTimeOriginal = none) (h2 : e.dateTime = none)
    (h3 : e.dateTimeDigitized = none) :
    get_date_from_filename (pre ++ "20230615" ++ suf) = some ⟨2023, 6, 15, 0, 0, 0⟩ ∧
    get_date_from_filename (pre ++ "2023-06-15" ++ suf) = some ⟨2023, 6, 15, 0, 0, 0⟩ ∧
    get_date_from_filename (pre ++ "2023_06_15" ++ suf) = some ⟨2023, 6, 15, 0, 0, 0⟩ ∧
    get_photo_date e (pre ++ "2023-06-15" ++ suf) mt = ⟨2023, 6, 15, 0, 0, 0⟩ := by
  have key : ∀ mid : String,
      (∀ tail, searchP1 (mid.data ++ tail) = some (2023, 6, 15)) →
      get_date_from_filename (pre ++ mid ++ suf) = some ⟨2023, 6, 15, 0, 0, 0⟩ := by
    intro mid hmid
    have hdata : (pre ++ mid ++ suf).data = pre.data ++ (mid.data ++ suf.data) := by
      simp [String.data_append]
    rw [get_date_from_filename, hdata,
      searchP1_append_nondigit pre.data _ hpre, hmid suf.data]
    rfl
  have k1 := key "20230615" (fun tail => searchP1_at_ymd8 tail)
  have k2 := key "2023-06-15" (fun tail => searchP1_at_ymd_dash tail)
  have k3 := key "2023_06_15" (fun tail => searchP1_at_ymd_us tail)
  refine ⟨k1, k2, k3, ?_⟩
  have hexif : get_date_from_exif e = none := by
    show exifDateLoop e date_tags = _
    rw [date_tags, exifDateLoop_cons, exifDateLoop_cons, exifDateLoop_cons]
    rw [show exifGet e "DateTimeOriginal" = e.dateTimeOriginal from rfl,
      show exifGet e "DateTime" = e.dateTime from rfl,
      show exifGet e "DateTimeDigitized" = e.dateTimeDigitized from rfl,
      h1, h2, h3]
    simp [exifDateLoop, Option.orElse]
  simp [get_photo_date, hexif, k2]

theorem filename_date_amended_witness :
    get_date_from_filename ("IMG_" ++ "20230615" ++ ".jpg") = some ⟨2023, 6, 15, 0, 0, 0⟩ ∧
    get_photo_date emptyExif ("IMG_" ++ "2023-06-15" ++ ".jpg") ⟨2020, 1, 1, 0, 0, 0⟩
      = ⟨2023, 6, 15, 0, 0, 0⟩ := by
  have h := filename_date_amended "IMG_" ".jpg" emptyExif ⟨2020, 1, 1, 0, 0, 0⟩
    (by decide) rfl rfl rfl
  exact ⟨h.1, h.2.2.2⟩

/-- C10: the filename date parser consults only the leftmost match of
each of its two patterns in turn — a successful leftmost 4/2/2 match
with a valid date is returned outright, an invalid one falls through to
the 8-digit pattern (never to a later 4/2/2 match) — so a valid date
occurring after an earlier invalid digit run is never found. -/
theorem filename_leftmost_only :
    (∀ (s : String) (g : Nat × Nat × Nat) (d : DateTime),
      searchP1 s.data = some g → dateOfGroups g = some d →
      get_date_from_filename s = some d) ∧
    (∀ (s : String) (g : Nat × Nat × Nat),
      searchP1 s.data = some g → dateOfGroups g = none →
      get_date_from_filename s = (searchP2 s.data).bind dateOfGroups) ∧
    get_date_from_filename ("1234_5678_" ++ "2023-06-15") = none ∧
    get_date_from_filename "2023-06-15" = some ⟨2023, 6, 15, 0, 0, 0⟩ := by
  refine ⟨?_, ?_, by decide, by decide⟩
  · intro s g d h1 h2
    simp [get_date_from_filename, h1, h2]
  · intro s g h1 h2
    simp only [get_date_from_filename, h1, h2]
    cases hp : searchP2 s.data <;> simp [hp]

theorem filename_leftmost_only_witness :
    get_date_from_filename "IMG_20230615.jpg" = some ⟨2023, 6, 15, 0, 0, 0⟩ ∧
    get_date_from_filename "1234_5678_2023-06-15" =
      (searchP2 ("1234_5678_2023-06-15" : String).data).bind dateOfGroups :=
  ⟨filename_leftmost_only.1 "IMG_20230615.jpg" (2023, 6, 15) ⟨2023, 6, 15, 0, 0, 0⟩
      (by decide) (by decide),
   filename_leftmost_only.2.1 "1234_5678_2023-06-15" (1234, 56, 78)
      (by decide) (by decide)⟩

/-- C1 (counterexample): the fallback place name produced by the code is
the string `"Inconnu"`, not `"Unknown"`: on a geocoder timeout the
resolved city is `"Inconnu"`, and a file without coordinates lands in a
`"{date} - Inconnu"` folder, which differs from `"{date} - Unknown"`. -/
theorem city_fallback_counterexample :
    (get_city_from_coordinates GeoResult.timeout 1 2).1 = "Inconnu" ∧
    "Inconnu" ≠ "Unknown" ∧
    (process_photo "Dest" (initState [])
        ⟨"x.jpg", ⟨some "2023:06:15 10:00:00", none, none, none⟩,
          ⟨2020, 1, 1, 0, 0, 0⟩, GeoResult.timeout, true⟩).fs =
      [⟨"Dest" ++ "/" ++ ("2023-06-15" ++ " - " ++ "Inconnu"), "x.jpg"⟩] ∧
    ("Dest" ++ "/" ++ ("2023-06-15" ++ " - " ++ "Inconnu") : String)
      ≠ "Dest" ++ "/" ++ ("2023-06-15" ++ " - " ++ "Unknown") :=
  ⟨rfl, by decide, by decide, by decide⟩

/-- C1 (amended): for every resolution outcome in which no coordinate
exists, the reverse-geocoding call fails (timeout, service error or
unexpected exception), the location is falsy, or no priority address
field is present, the resolved place name is the sentinel `"Inconnu"`
and the file's destination folder is `"{date} - Inconnu"`. -/
theorem city_fallback_inconnu :
    (∀ lat lon : ℚ, (get_city_from_coordinates GeoResult.timeout lat lon).1 = "Inconnu") ∧
    (∀ lat lon : ℚ, (get_city_from_coordinates GeoResult.serviceError lat lon).1 = "Inconnu") ∧
    (∀ lat lon : ℚ, (get_city_from_coordinates GeoResult.unexpected lat lon).1 = "Inconnu") ∧
    (∀ lat lon : ℚ, (get_city_from_coordinates (GeoResult.ok none) lat lon).1 = "Inconnu") ∧
    (∀ (lat lon : ℚ) (addr : Address), addr.village = none → addr.town = none →
      addr.city = none → addr.municipality = none → addr.county = none →
      (get_city_from_coordinates (GeoResult.ok (some addr)) lat lon).1 = "Inconnu") ∧
    (∀ (destRoot : String) (st : RunState) (f : FileInput),
      f.moveOk = true →
      (get_gps_coordinates f.exif = none ∨ f.geo = GeoResult.timeout ∨
        f.geo = GeoResult.serviceError ∨ f.geo = GeoResult.unexpected ∨
        f.geo = GeoResult.ok none ∨
        (∃ addr : Address, f.geo = GeoResult.ok (some addr) ∧ addr.village = none ∧
          addr.town = none ∧ addr.city = none ∧ addr.municipality = none ∧
          addr.county = none)) →
      ∃ nm, (process_photo destRoot st f).fs =
        ⟨destRoot ++ "/" ++ (formatDate (get_photo_date f.exif f.name f.mtime)
          ++ " - " ++ "Inconnu"), nm⟩ :: st.fs) := by
  refine ⟨fun lat lon => rfl, fun lat lon => rfl, fun lat lon => rfl, fun lat lon => rfl,
    ?_, ?_⟩
  · intro lat lon addr h1 h2 h3 h4 h5
    simp [get_city_from_coordinates, pickCity, strOr, h1, h2, h3, h4, h5]
  · intro destRoot st f hm hcase
    rcases hg : get_gps_coordinates f.exif with _ | ⟨lat, lon⟩
    · obtain ⟨nm2, hnm⟩ := get_unique_filename_shape st.fs
        (destRoot ++ "/" ++ (formatDate (get_photo_date f.exif f.name f.mtime)
          ++ " - " ++ "Inconnu")) f.name
      refine ⟨nm2, ?_⟩
      simp only [process_photo, hg, hm, if_true]
      rw [hnm]
    · have hcity : (get_city_from_coordinates f.geo lat lon).1 = "Inconnu" := by
        rcases hcase with h | h | h | h | h | ⟨addr, hgeo, h1, h2, h3, h4, h5⟩
        · rw [hg] at h; exact absurd h (by simp)
        · rw [h]; rfl
        · rw [h]; rfl
        · rw [h]; rfl
        · rw [h]; rfl
        · rw [hgeo]
          simp [get_city_from_coordinates, pickCity, strOr, h1, h2, h3, h4, h5]
      obtain ⟨nm2, hnm⟩ := get_unique_filename_shape st.fs
        (destRoot ++ "/" ++ (formatDate (get_photo_date f.exif f.name f.mtime)
          ++ " - " ++ "Inconnu")) f.name
      refine ⟨nm2, ?_⟩
      simp only [process_photo, hg, hm, if_true, hcity]
      rw [hnm]

theorem city_fallback_inconnu_witness :
    (get_city_from_coordinates (GeoResult.ok (some ⟨none, none, none, none, none⟩)) 1 2).1
      = "Inconnu" ∧
    (∃ nm, (process_photo "Dest" (initState [])
        ⟨"x.jpg", emptyExif, ⟨2020, 1, 1, 0, 0, 0⟩, GeoResult.timeout, true⟩).fs =
      ⟨"Dest" ++ "/" ++ (formatDate (get_photo_date emptyExif "x.jpg" ⟨2020, 1, 1, 0, 0, 0⟩)
        ++ " - " ++ "Inconnu"), nm⟩ :: (initState []).fs) ∧
    (∃ nm, (process_photo "Dest" (initState [])
        ⟨"x.jpg", gpsExif (1, 0, 0) (2, 0, 0) none none, ⟨2020, 1, 1, 0, 0, 0⟩,
          GeoResult.ok (some ⟨none, none, none, none, none⟩), true⟩).fs =
      ⟨"Dest" ++ "/" ++ (formatDate (get_photo_date (gpsExif (1, 0, 0) (2, 0, 0) none none)
        "x.jpg" ⟨2020, 1, 1, 0, 0, 0⟩) ++ " - " ++ "Inconnu"), nm⟩ :: (initState []).fs) :=
  ⟨city_fallback_inconnu.2.2.2.2.1 1 2 ⟨none, none, none, none, none⟩ rfl rfl rfl rfl rfl,
   city_fallback_inconnu.2.2.2.2.2 "Dest" (initState [])
     ⟨"x.jpg", emptyExif, ⟨2020, 1, 1, 0, 0, 0⟩, GeoResult.timeout, true⟩ rfl (Or.inl rfl),
   city_fallback_inconnu.2.2.2.2.2 "Dest" (initState [])
     ⟨"x.jpg", gpsExif (1, 0, 0) (2, 0, 0) none none, ⟨2020, 1, 1, 0, 0, 0⟩,
       GeoResult.ok (some ⟨none, none, none, none, none⟩), true⟩ rfl
     (Or.inr (Or.inr (Or.inr (Or.inr (Or.inr
       ⟨⟨none, none, none, none, none⟩, rfl, rfl, rfl, rfl, rfl, rfl⟩)))))⟩

/-- C6 (counterexample): the triple (0, 0, 0) with hemisphere reference
"S" decodes to latitude 0, which is not negative, refuting the strict
"negative" in the claim. -/
theorem gps_sign_counterexample :
    get_gps_coordinates (gpsExif (0, 0, 0) (1, 0, 0) (some "S") (some "E"))
      = some (0, 1) ∧
    ¬ ((0 : ℚ) < 0) := by
  constructor
  · show some _ = _
    norm_num [get_gps_coordinates, gpsExif, convert_to_degrees]
    decide
  · norm_num

/-- C6 (amended): a numeric DMS triple decodes to
`degrees + minutes/60 + seconds/3600`; with hemisphere reference "S"
(resp. "W") the decoded latitude (resp. longitude) is that value
negated, hence non-positive for non-negative triples and strictly
negative whenever the decoded magnitude is positive; with any other
reference (such as "N"/"E") it is the value itself, hence non-negative
for non-negative triples. -/
theorem gps_sign_amended (d m s d2 m2 s2 : ℚ) (rlat rlon : Option String) :
    convert_to_degrees [ExifVal.num d, ExifVal.num m, ExifVal.num s]
      = some (d + m / 60 + s / 3600) ∧
    get_gps_coordinates (gpsExif (d, m, s) (d2, m2, s2) rlat rlon) =
      some ((if rlat = some "S" then -(d + m / 60 + s / 3600)
             else d + m / 60 + s / 3600),
            (if rlon = some "W" then -(d2 + m2 / 60 + s2 / 3600)
             else d2 + m2 / 60 + s2 / 3600)) ∧
    (∀ latv lonv : ℚ,
      get_gps_coordinates (gpsExif (d, m, s) (d2, m2, s2) rlat rlon)
        = some (latv, lonv) →
      (0 ≤ d → 0 ≤ m → 0 ≤ s →
        (rlat = some "S" → latv ≤ 0 ∧ (0 < d + m / 60 + s / 3600 → latv < 0)) ∧
        (rlat ≠ some "S" → 0 ≤ latv)) ∧
      (0 ≤ d2 → 0 ≤ m2 → 0 ≤ s2 →
        (rlon = some "W" → lonv ≤ 0 ∧ (0 < d2 + m2 / 60 + s2 / 3600 → lonv < 0)) ∧
        (rlon ≠ some "W" → 0 ≤ lonv))) := by
  have hg : get_gps_coordinates (gpsExif (d, m, s) (d2, m2, s2) rlat rlon) =
      some ((if rlat = some "S" then -(d + m / 60 + s / 3600)
             else d + m / 60 + s / 3600),
            (if rlon = some "W" then -(d2 + m2 / 60 + s2 / 3600)
             else d2 + m2 / 60 + s2 / 3600)) := rfl
  refine ⟨rfl, hg, ?_⟩
  intro latv lonv heq
  rw [hg] at heq
  have hp := Option.some.inj heq
  have hlat : (if rlat = some "S" then -(d + m / 60 + s / 3600)
      else d + m / 60 + s / 3600) = latv := congrArg Prod.fst hp
  have hlon : (if rlon = some "W" then -(d2 + m2 / 60 + s2 / 3600)
      else d2 + m2 / 60 + s2 / 3600) = lonv := congrArg Prod.snd hp
  constructor
  · intro hd hm hs
    have hm60 : 0 ≤ m / 60 := div_nonneg hm (by norm_num)
    have hs3600 : 0 ≤ s / 3600 := div_nonneg hs (by norm_num)
    have hraw : 0 ≤ d + m / 60 + s / 3600 := by linarith
    constructor
    · intro hS
      rw [hS] at hlat
      simp only [if_true, reduceIte] at hlat
      rw [← hlat]
      exact ⟨by linarith, fun h0 => by linarith⟩
    · intro hNS
      rw [if_neg hNS] at hlat
      rw [← hlat]
      exact hraw
  · intro hd hm hs
    have hm60 : 0 ≤ m2 / 60 := div_nonneg hm (by norm_num)
    have hs3600 : 0 ≤ s2 / 3600 := div_nonneg hs (by norm_num)
    have hraw : 0 ≤ d2 + m2 / 60 + s2 / 3600 := by linarith
    constructor
    · intro hW
      rw [hW] at hlon
      simp only [if_true, reduceIte] at hlon
      rw [← hlon]
      exact ⟨by linarith, fun h0 => by linarith⟩
    · intro hNW
      rw [if_neg hNW] at hlon
      rw [← hlon]
      exact hraw

theorem gps_sign_amended_witness :
    get_gps_coordinates (gpsExif (10, 30, 0) (20, 0, 0) (some "S") (some "E"))
      = some (-(10 + 30 / 60 + 0 / 3600), 20 + 0 / 60 + 0 / 3600) ∧
    (-(10 + 30 / 60 + 0 / 3600) : ℚ) ≤ 0 ∧
    (0 ≤ (20 + 0 / 60 + 0 / 3600 : ℚ)) := by
  have h := gps_sign_amended 10 30 0 20 0 0 (some "S") (some "E")
  have heq : get_gps_coordinates (gpsExif (10, 30, 0) (20, 0, 0) (some "S") (some "E"))
      = some (-(10 + 30 / 60 + 0 / 3600), 20 + 0 / 60 + 0 / 3600) := by
    rw [h.2.1, if_pos rfl, if_neg (by decide : ¬ (some "E" = some "W"))]
  refine ⟨heq, ?_, ?_⟩
  · exact (((h.2.2 _ _ heq).1 (by norm_num) (by norm_num) (by norm_num)).1 rfl).1
  · exact ((h.2.2 _ _ heq).2 (by norm_num) (by norm_num) (by norm_num)).2 (by decide)

/-- C9: the GPS decoder returns no coordinate, rather than raising, on
every structural error — absent `GPSInfo`, missing latitude or
longitude component, or a triple that is not three numeric values — and
produces a coordinate exactly when both components convert. -/
theorem gps_structural_errors (e : Exif) :
    (e.gpsInfo = none → get_gps_coordinates e = none) ∧
    (∀ g : GpsData, e.gpsInfo = some g →
      ((g.gpsLatitude = none ∨ g.gpsLongitude = none) → get_gps_coordinates e = none) ∧
      (∀ latV lonV, g.gpsLatitude = some latV → g.gpsLongitude = some lonV →
        ((convert_to_degrees latV = none ∨ convert_to_degrees lonV = none) →
          get_gps_coordinates e = none) ∧
        (∀ a b : ℚ, convert_to_degrees latV = some a → convert_to_degrees lonV = some b →
          get_gps_coordinates e =
            some ((if g.gpsLatitudeRef = some "S" then -a else a),
                  (if g.gpsLongitudeRef = some "W" then -b else b))))) ∧
    (∀ vs : List ExifVal,
      (∀ q1 q2 q3 : ℚ, vs ≠ [ExifVal.num q1, ExifVal.num q2, ExifVal.num q3]) →
      convert_to_degrees vs = none) := by
  refine ⟨?_, ?_, ?_⟩
  · intro h
    simp [get_gps_coordinates, h]
  · intro g hg
    constructor
    · rintro (h | h)
      · simp [get_gps_coordinates, hg, h]
      · cases hL : g.gpsLatitude <;> simp [get_gps_coordinates, hg, h, hL]
    · intro latV lonV hla hlo
      constructor
      · rintro (h | h)
        · simp [get_gps_coordinates, hg, hla, hlo, h]
        · cases hca : convert_to_degrees latV <;>
            simp [get_gps_coordinates, hg, hla, hlo, h, hca]
      · intro a b ha hb
        simp [get_gps_coordinates, hg, hla, hlo, ha, hb]
  · intro vs hvs
    cases vs with
    | nil => rfl
    | cons v1 t1 =>
      cases v1 with
      | nonNum => rfl
      | num q1 =>
        cases t1 with
        | nil => rfl
        | cons v2 t2 =>
          cases v2 with
          | nonNum => rfl
          | num q2 =>
            cases t2 with
            | nil => rfl
            | cons v3 t3 =>
              cases v3 with
              | nonNum => rfl
              | num q3 =>
                cases t3 with
                | cons v4 t4 => rfl
                | nil => exact absurd rfl (hvs q1 q2 q3)

theorem gps_structural_errors_witness :
    get_gps_coordinates emptyExif = none ∧
    convert_to_degrees [ExifVal.nonNum] = none :=
  ⟨(gps_structural_errors emptyExif).1 rfl,
   (gps_structural_errors emptyExif).2.2 [ExifVal.nonNum]
     (fun q1 q2 q3 => by simp)⟩

/-- C3: `get_unique_filename` returns the original path unchanged when
no file exists there; otherwise it returns the first `stem_1, stem_2, …`
(suffix inserted before the extension, counter incremented) at which no
file exists; the result never denotes an existing file; and concretely a
second identically named file gets `_1`, a third `_2`. -/
theorem unique_filename_spec (fs : List FsPath) (p : FsPath) :
    (p ∉ fs → get_unique_filename fs p = p) ∧
    get_unique_filename fs p ∉ fs ∧
    (p ∈ fs → ∃ k, 1 ≤ k ∧
      get_unique_filename fs p = ⟨p.dir, numberedName (pyStem p.name) (pyExt p.name) k⟩ ∧
      (⟨p.dir, numberedName (pyStem p.name) (pyExt p.name) k⟩ : FsPath) ∉ fs ∧
      ∀ j, 1 ≤ j → j < k →
        (⟨p.dir, numberedName (pyStem p.name) (pyExt p.name) j⟩ : FsPath) ∈ fs) ∧
    get_unique_filename [(⟨"Dest", "photo.jpg"⟩ : FsPath)] ⟨"Dest", "photo.jpg"⟩
      = ⟨"Dest", "photo_1.jpg"⟩ ∧
    get_unique_filename [⟨"Dest", "photo.jpg"⟩, ⟨"Dest", "photo_1.jpg"⟩] ⟨"Dest", "photo.jpg"⟩
      = ⟨"Dest", "photo_2.jpg"⟩ := by
  refine ⟨?_, ?_, ?_, by decide, by decide⟩
  · intro h
    simp only [get_unique_filename, h, if_false]
  · by_cases h : p ∈ fs
    · simp only [get_unique_filename, h, if_true]
      obtain ⟨k, _, heq, hfree, _⟩ := uniqueLoop_run fs p.dir (pyStem p.name) (pyExt p.name)
      rw [heq]
      exact hfree
    · simp only [get_unique_filename, h, if_false]
      exact not_false
  · intro h
    simp only [get_unique_filename, h, if_true]
    exact uniqueLoop_run fs p.dir (pyStem p.name) (pyExt p.name)

theorem unique_filename_spec_witness :
    get_unique_filename [] (⟨"Dest", "photo.jpg"⟩ : FsPath) = ⟨"Dest", "photo.jpg"⟩ ∧
    get_unique_filename [(⟨"Dest", "photo.jpg"⟩ : FsPath)] ⟨"Dest", "photo.jpg"⟩ ∉
      [(⟨"Dest", "photo.jpg"⟩ : FsPath)] :=
  ⟨(unique_filename_spec [] ⟨"Dest", "photo.jpg"⟩).1 (by decide),
   (unique_filename_spec [⟨"Dest", "photo.jpg"⟩] ⟨"Dest", "photo.jpg"⟩).2.1⟩

/-- C4: every `process_photo` call ends in exactly one of two terminal
states — file moved and processed counter incremented, or error
recorded and error counter incremented — so a run's processed plus
error count equals the number of files attempted (those passing the
extension filter); a missing source attempts none. -/
theorem process_counts_invariant :
    (∀ (destRoot : String) (st : RunState) (f : FileInput),
      ((process_photo destRoot st f).processed = st.processed + 1 ∧
        (process_photo destRoot st f).errors = st.errors ∧
        ∃ dest, (process_photo destRoot st f).fs = dest :: st.fs) ∨
      ((process_photo destRoot st f).processed = st.processed ∧
        (process_photo destRoot st f).errors = st.errors + 1 ∧
        (process_photo destRoot st f).fs = st.fs)) ∧
    (∀ (destRoot : String) (sourceExists : Bool) (files : List FileInput)
        (fs0 : List FsPath),
      (organize_photos destRoot sourceExists files (initState fs0)).state.processed +
        (organize_photos destRoot sourceExists files (initState fs0)).state.errors =
      if sourceExists then (files.filter (fun f => isPhotoFile f.name)).length else 0) := by
  constructor
  · intro destRoot st f
    by_cases h : f.moveOk
    · left
      refine ⟨by simp [process_photo, h], by simp [process_photo, h], ?_⟩
      simp only [process_photo, h, if_true]
      exact ⟨_, rfl⟩
    · right
      refine ⟨?_, ?_, ?_⟩ <;> simp [process_photo, h]
  · intro destRoot se files fs0
    cases se
    · simp [organize_photos, initState]
    · simp only [organize_photos, if_true]
      rw [foldl_count]
      simp [initState]

/-- C7: the reverse-geocoding service is never called for a file
without coordinates (its trace chunk has no request event), and in any
run's trace every issued request is immediately preceded by the
blocking 1-second sleep. -/
theorem geocode_throttling :
    (∀ (destRoot : String) (st : RunState) (f : FileInput),
      get_gps_coordinates f.exif = none →
      ∃ chunk, (process_photo destRoot st f).trace = st.trace ++ chunk ∧
        ∀ e ∈ chunk, ∀ lat lon, e ≠ Event.geocode lat lon) ∧
    (∀ (destRoot : String) (sourceExists : Bool) (files : List FileInput)
        (fs0 : List FsPath),
      throttled (organize_photos destRoot sourceExists files (initState fs0)).state.trace) := by
  constructor
  · intro destRoot st f hg
    obtain ⟨chunk, heq, _, hnone⟩ := process_photo_trace destRoot st f
    exact ⟨chunk, heq, hnone hg⟩
  · intro destRoot se files fs0
    cases se
    · exact throttled_nil
    · simp only [organize_photos, if_true]
      exact foldl_throttled destRoot _ (initState fs0) throttled_nil

theorem geocode_throttling_witness :
    ∃ chunk,
      (process_photo "Dest" (initState [])
          ⟨"x.jpg", emptyExif, ⟨2020, 1, 1, 0, 0, 0⟩, GeoResult.unexpected, true⟩).trace
        = (initState []).trace ++ chunk ∧
      ∀ e ∈ chunk, ∀ lat lon, e ≠ Event.geocode lat lon :=
  geocode_throttling.1 "Dest" (initState [])
    ⟨"x.jpg", emptyExif, ⟨2020, 1, 1, 0, 0, 0⟩, GeoResult.unexpected, true⟩ rfl

/-- C8: when the source directory does not exist the run stops before
processing any file — zero processed, zero errors, the destination
filesystem untouched, no events — and the failure is reported
(`fatal = true`). -/
theorem missing_source_noop (destRoot : String) (files : List FileInput)
    (fs0 : List FsPath) :
    organize_photos destRoot false files (initState fs0) = ⟨⟨fs0, 0, 0, []⟩, true⟩ := rfl

end TriPhotos
